import Mathlib

/-!
# Verification of the chuango-h4-client DeviceConnection and Client logic

Shallow embedding of the TypeScript client library for the Chuango H4 /
Dreamcatcher alarm panel.  The embedded code is the latest revision of the
library (the file with the full `DeviceConnection` class): the inbound
message dispatcher installed in the `DeviceConnection` constructor, the
per-action handler map, the `getAllDevices` / `getCurrentAlarmState` /
`setAlarmState` operations, the `send` / `buildK1ActionMessage` publishing
helpers, and the three-step `Client.login` HTTP sequence.

Inbound MQTT messages are JSON objects; we embed them as structures whose
fields are `Option`-valued, `none` standing for a field that is absent
(JavaScript `undefined`).  Promise resolution and event emission are made
observable through an `Event` type: processing one inbound message is a
pure function from a connection state and a message to a new state and a
list of emitted events.
-/

namespace ChuangoH4

/-- A peripheral node attached to a device (source interface `DeviceNode`). -/
structure DeviceNode where
  RF : String := ""
  FTCode : String := ""
  Index : String := ""
  Ver : String := ""
  UUID : String := ""
  FuncType : String := ""
  Value : String := ""
  Unit : String := ""
  Alarm24H : String := ""
  ModeEnableList : String := ""
  DisableSOS : String := ""
  Chime : String := ""
  AlarmDelayEnable : String := ""
  UserName : String := ""
  Update : String := ""
  NewNick : String := ""
deriving DecidableEq

/-- Signal-strength attribute of a device (source interface `SignalAttribute`). -/
structure SignalAttribute where
  AttrValue : String := ""
  AttrID : String := ""
deriving DecidableEq

/-- A sensor/zone entry of the panel's device list (source interface `Device`). -/
structure Device where
  DevId : String := ""
  DevName : String := ""
  Icon : String := ""
  Country : String := ""
  RF : String := ""
  NoticeFlag : String := ""
  OFFLine : String := ""
  GID : String := ""
  DisPush : String := ""
  NewNick : String := ""
  EpId : String := ""
  NodesList : List DeviceNode := []
  Signal : SignalAttribute := {}
deriving DecidableEq

/-- The arm states of the panel (source enum `ArmState`: Home = 1,
Disarmed = 2, Armed = 3, SOS = 4). -/
inductive ArmState
  | Home
  | Disarmed
  | Armed
  | SOS
deriving DecidableEq

/-- Numeric value of an `ArmState`, as in the TypeScript enum. -/
def ArmState.toInt : ArmState → Int
  | .Home => 1
  | .Disarmed => 2
  | .Armed => 3
  | .SOS => 4

/-- The alarm-state record stored on the connection (source interface
`AlarmState`).  The source declares `State: ArmState`, but at runtime the
`SceneUpdate` handler stores `Number(resp.CurrentSceneId)`, a plain
JavaScript number, so the embedding uses `Int`. -/
structure AlarmState where
  State : Int
  Alarm : Bool
deriving DecidableEq

/-- The `response` object of an inbound message.  Every field the embedded
handlers read is `Option`-valued: `none` models a JavaScript field that is
absent (`undefined`). -/
structure Response where
  action : Option String := none
  status : Option String := none
  clear_flag : Option String := none
  page_flag : Option String := none
  DevicesList : Option (List Device) := none
  model : Option String := none
  online : Option String := none
  CurrentSceneId : Option String := none
  AlarmState : Option String := none
deriving DecidableEq

/-- The `message` object of an inbound message envelope. -/
structure MessageBody where
  response : Option Response := none
  subject : Option String := none
deriving DecidableEq

/-- A parsed inbound JSON message: an optional `message` envelope and an
optional top-level `msg` field (the broker greets with `{msg: "online"}`). -/
structure InMessage where
  message : Option MessageBody := none
  msg : Option String := none
deriving DecidableEq

/-- Accumulator-style parse of a non-empty run of decimal digits. -/
def decDigitsAux : List Char → Nat → Option Nat
  | [], acc => some acc
  | c :: cs, acc =>
    if c.isDigit then decDigitsAux cs (acc * 10 + (c.toNat - 48)) else none

/-- Models the JavaScript `Number(x)` conversion as applied to
`resp.CurrentSceneId`: a decimal string converts to its integer value.
Scene ids on the wire are small decimal strings; inputs JavaScript would
turn into `NaN` (absent field, non-numeric text) are mapped to 0 here. -/
def jsNumber (s : Option String) : Int :=
  match (s.getD "").data with
  | [] => 0
  | l =>
    match decDigitsAux l 0 with
    | some n => (n : Int)
    | none => 0

/-- The handler closures that can occupy a slot of the connection's
`handlers` map.  The constructor-installed handlers (`ignore_message`,
`status_info`, `update_devices`, `SceneUpdate`) carry no state; the
handlers registered by `getAllDevices`, `getCurrentAlarmState` and
`setAlarmState` capture the identity of the promise they resolve (modelled
by a request id `rid`), and the `setAlarmState` closure also captures the
requested new state. -/
inductive Handler
  | ignore
  | statusInfo
  | updateDevices
  | sceneUpdate
  | getAllDevices (rid : Nat)
  | getSceneCurrent (rid : Nat)
  | setSceneCurrent (rid : Nat) (newState : ArmState)
deriving DecidableEq

/-- Mutable state of a `DeviceConnection`: the `handlers` map and the
`model` / `online` / `devices` / `alarm` fields.  `model` is `Option`
because `this.model = resp.model` can store `undefined` when the response
omits the field; it is initialised to the empty string. -/
structure ConnState where
  handlers : String → Option Handler
  model : Option String
  online : Bool
  devices : List Device
  alarm : Option AlarmState

/-- Observable effects of processing one inbound message: typed event
emissions, promise settlements (identified by the request id of the
registered handler), and the two `console.dir` logging branches.  The
broker's `{msg: "online"}` greeting is explicitly ignored by the source
("do nothing") and produces no event at all. -/
inductive Event
  | statusEmitted (online : Bool)
  | stateEmitted (st : AlarmState)
  | alarmEmitted (resp : Response)
  | resolvedDevices (rid : Nat) (devs : List Device)
  | resolvedState (rid : Nat) (st : Option AlarmState)
  | resolvedTrue (rid : Nat)
  | rejected (rid : Nat) (resp : Response)
  | loggedUnhandled
  | loggedUnknown
deriving DecidableEq

/-- Functional update of the handlers map (`this.handlers[k] = v`). -/
def setHandler (hs : String → Option Handler) (k : String) (v : Handler) :
    String → Option Handler :=
  fun k2 => if k2 = k then some v else hs k2

/-- Merge one device into the device list, as the `update_devices` handler
does: `findIndex` on `DevId`, replace in place if found, append otherwise. -/
def mergeDevice (ds : List Device) (dev : Device) : List Device :=
  match ds.findIdx? (fun item => item.DevId == dev.DevId) with
  | some i => ds.set i dev
  | none => ds ++ [dev]

/-- Run one handler closure on an inbound message.  Each branch is the body
of the corresponding closure in the source.  The `fuel` argument bounds the
nesting of handler invocations: the `SceneUpdate` handler itself invokes
whatever occupies the `"get_scene_current"` slot, which in every reachable
state is `ignore` or a `getSceneCurrent` closure, so nesting depth 2 is
exact for the program; the fuel only truncates unreachable self-referential
handler states. -/
def runHandler : Nat → Handler → ConnState → InMessage → ConnState × List Event
  | _, .ignore, s, _ => (s, [])
  | _, .statusInfo, s, m =>
    match m.message with
    | some body =>
      match body.response with
      | some resp =>
        -- this.model = resp.model; this.online = resp.online === "1"; emit
        ({ s with model := resp.model, online := resp.online == some "1" },
         [Event.statusEmitted (resp.online == some "1")])
      | none => (s, [])
    | none => (s, [])
  | _, .updateDevices, s, m =>
    match m.message with
    | some body =>
      match body.response with
      | some resp =>
        match resp.DevicesList with
        | some l => ({ s with devices := l.foldl mergeDevice s.devices }, [])
        | none => (s, [])
      | none => (s, [])
    | none => (s, [])
  | fuel + 1, .sceneUpdate, s, m =>
    match m.message with
    | some body =>
      match body.response with
      | some resp =>
        let al : AlarmState :=
          { State := jsNumber resp.CurrentSceneId,
            Alarm := resp.AlarmState == some "1" }
        let s1 := { s with alarm := some al }
        -- emit "state", then invoke the "get_scene_current" slot if occupied
        match s1.handlers "get_scene_current" with
        | some cb =>
          let r := runHandler fuel cb s1 m
          (r.1, Event.stateEmitted al :: r.2)
        | none => (s1, [Event.stateEmitted al])
      | none => (s, [])
    | none => (s, [])
  | 0, .sceneUpdate, s, _ => (s, [])
  | _, .getAllDevices rid, s, m =>
    match m.message with
    | some body =>
      match body.response with
      | some resp =>
        let devs1 := if resp.clear_flag = some "1" then [] else s.devices
        let devs2 :=
          match resp.DevicesList with
          | some l => devs1 ++ l
          | none => devs1
        if resp.page_flag = some "0" then
          ({ s with devices := devs2,
                    handlers := setHandler s.handlers "get_all_devices" .ignore },
           [Event.resolvedDevices rid devs2])
        else
          ({ s with devices := devs2 }, [])
      | none => (s, [])
    | none => (s, [])
  | _, .getSceneCurrent rid, s, m =>
    match m.message with
    | some body =>
      match body.response with
      | some resp =>
        if resp.action == some "SceneUpdate" then
          ({ s with handlers := setHandler s.handlers "get_scene_current" .ignore },
           [Event.resolvedState rid s.alarm])
        else (s, [])
      | none => (s, [])
    | none => (s, [])
  | _, .setSceneCurrent rid newState, s, m =>
    match m.message with
    | some body =>
      match body.response with
      | some resp =>
        if resp.status == some "ok" then
          ({ s with alarm := some { State := newState.toInt, Alarm := false } },
           [Event.resolvedTrue rid])
        else
          (s, [Event.rejected rid resp])
      | none => (s, [])
    | none => (s, [])

/-- Handler-nesting bound sufficient for every reachable state (the only
nested invocation is `SceneUpdate` calling the `"get_scene_current"` slot,
which never itself nests further). -/
def handlerFuel : Nat := 2

/-- The key used to look up `this.handlers[msg.message.response.action]`.
When the response carries no `action` field, JavaScript converts the
`undefined` key to the string `"undefined"`, which never occupies the map. -/
def actionKey (resp : Response) : String :=
  resp.action.getD "undefined"

/-- The MQTT message listener installed in the `DeviceConnection`
constructor: parse, then dispatch.  A message with a `response` whose
`subject` is `"Alarm"` is emitted directly as an alarm event; otherwise the
handler registered for `response.action` is invoked if present, and the
message is logged as unhandled if not.  A message without a `response` is
silently ignored when its top-level `msg` field is `"online"` and logged as
unknown otherwise. -/
def processMessage (s : ConnState) (m : InMessage) : ConnState × List Event :=
  match m.message with
  | some body =>
    match body.response with
    | some resp =>
      if body.subject = some "Alarm" then
        (s, [Event.alarmEmitted resp])
      else
        match s.handlers (actionKey resp) with
        | some h => runHandler handlerFuel h s m
        | none => (s, [Event.loggedUnhandled])
    | none =>
      if m.msg = some "online" then (s, []) else (s, [Event.loggedUnknown])
  | none =>
    if m.msg = some "online" then (s, []) else (s, [Event.loggedUnknown])

/-- The handlers map as the constructor leaves it: `ignore_message` for
`device_info`, `get_all_devices` and `get_scene_current`, and the three
closures for `status_info`, `update_devices` and `SceneUpdate`.  No entry
exists for `set_scene_current` until `setAlarmState` is called. -/
def initHandlers : String → Option Handler := fun k =>
  if k = "device_info" then some .ignore
  else if k = "get_all_devices" then some .ignore
  else if k = "get_scene_current" then some .ignore
  else if k = "status_info" then some .statusInfo
  else if k = "update_devices" then some .updateDevices
  else if k = "SceneUpdate" then some .sceneUpdate
  else none

/-- The connection state right after the constructor runs. -/
def initConnState : ConnState :=
  { handlers := initHandlers
    model := some ""
    online := false
    devices := []
    alarm := none }

/-! ## Outbound messages: `buildK1ActionMessage` and `send` -/

/-- Minimal JSON values, sufficient for the envelopes this client builds
(every leaf is a string). -/
inductive Json
  | str (s : String)
  | obj (fields : List (String × Json))

/-- Quote a string for JSON output.  `JSON.stringify`'s escaping of special
characters is not modelled: the identifiers, aliases and enum strings this
client serialises contain none. -/
def jsonQuote (s : String) : String :=
  "\"" ++ s ++ "\""

mutual

/-- Serialisation of the embedded JSON values, as `JSON.stringify` renders
them. -/
def Json.stringify : Json → String
  | .str s => jsonQuote s
  | .obj fs => "\x7b" ++ Json.stringifyFields fs ++ "\x7d"

/-- Comma-separated `"key":value` renderings of an object's fields. -/
def Json.stringifyFields : List (String × Json) → String
  | [] => ""
  | [(k, v)] => jsonQuote k ++ ":" ++ Json.stringify v
  | (k, v) :: f :: fs =>
    jsonQuote k ++ ":" ++ Json.stringify v ++ "," ++ Json.stringifyFields (f :: fs)

end

/-- The identity data a `DeviceConnection` embeds in outbound messages: the
device id from its `DeviceInfo`, the random per-connection `clientId`, the
client's display alias, and the client's username (used by `setAlarmState`
as the `Mail` field). -/
structure ConnConfig where
  deviceID : String
  clientId : String
  Alias : String
  username : String
deriving DecidableEq

/-- The broadcast envelope built by `buildK1ActionMessage(subject, request)`. -/
def buildK1ActionMessage (c : ConnConfig) (subject : String) (request : Json) : Json :=
  .obj [("message", .obj
    [("type", .str "broadcast"),
     ("to", .str c.deviceID),
     ("from", .str c.clientId),
     ("username", .str c.Alias),
     ("ack_mark", .str "0"),
     ("subject", .str subject),
     ("request", request)])]

/-- An MQTT publish: topic and serialised payload. -/
structure Publish where
  topic : String
  payload : String
deriving DecidableEq

/-- The publish performed by `send(message)`: the JSON-serialised message on the fixed
per-device topic.  The source neither awaits nor records anything: `send`
reads no connection state and registers no handler, so its embedding is a
pure function from the connection's identity data and the message to the
single publish it performs. -/
def send (c : ConnConfig) (message : Json) : Publish :=
  { topic := "00s/01/x/300/" ++ c.deviceID ++ "/post/111"
    payload := Json.stringify message }

/-! ## The public operations as state transitions

`getAllDevices`, `getCurrentAlarmState` and `setAlarmState` each store a
fresh handler closure into the `handlers` map and publish a request; the
closure later settles the operation's promise.  We model an execution of
the connection as a sequence of steps: either one of these registrations
(tagged by the request id of the promise it creates) or the arrival of one
inbound message. -/

/-- One step of a `DeviceConnection` execution. -/
inductive OpStep
  | callGetAllDevices (rid : Nat)
  | callGetCurrentAlarmState (rid : Nat)
  | callSetAlarmState (rid : Nat) (newState : ArmState)
  | inbound (m : InMessage)

/-- Effect of one step on the connection state: the three operations store
their closure into the handler map exactly as the source does; an inbound
step runs the message listener. -/
def OpStep.effect (s : ConnState) : OpStep → ConnState × List Event
  | .callGetAllDevices rid =>
    ({ s with handlers := setHandler s.handlers "get_all_devices" (.getAllDevices rid) }, [])
  | .callGetCurrentAlarmState rid =>
    ({ s with handlers := setHandler s.handlers "get_scene_current" (.getSceneCurrent rid) }, [])
  | .callSetAlarmState rid newState =>
    ({ s with handlers :=
        setHandler s.handlers "set_scene_current" (.setSceneCurrent rid newState) }, [])
  | .inbound m => processMessage s m

/-- Run a sequence of steps, accumulating the emitted events. -/
def run (s : ConnState) : List OpStep → ConnState × List Event
  | [] => (s, [])
  | st :: rest =>
    let r1 := OpStep.effect s st
    let r2 := run r1.1 rest
    (r2.1, r1.2 ++ r2.2)

/-- The request id registered by a step, if any. -/
def OpStep.regRid : OpStep → Option Nat
  | .callGetAllDevices rid => some rid
  | .callGetCurrentAlarmState rid => some rid
  | .callSetAlarmState rid _ => some rid
  | .inbound _ => none

/-- The handler-map key an operation step registers into, if any. -/
def OpStep.slot : OpStep → Option String
  | .callGetAllDevices _ => some "get_all_devices"
  | .callGetCurrentAlarmState _ => some "get_scene_current"
  | .callSetAlarmState _ _ => some "set_scene_current"
  | .inbound _ => none

/-- The request id a handler closure would settle, if any. -/
def Handler.rid : Handler → Option Nat
  | .getAllDevices rid => some rid
  | .getSceneCurrent rid => some rid
  | .setSceneCurrent rid _ => some rid
  | _ => none

/-- The request id an event settles (resolves or rejects), if any. -/
def Event.settledRid : Event → Option Nat
  | .resolvedDevices rid _ => some rid
  | .resolvedState rid _ => some rid
  | .resolvedTrue rid => some rid
  | .rejected rid _ => some rid
  | _ => none

/-- No handler slot of the state holds a closure for request `rid`. -/
def ridFree (rid : Nat) (s : ConnState) : Prop :=
  ∀ k h, s.handlers k = some h → h.rid ≠ some rid

/-! ## Device-list pagination -/

/-- Wrap a page response in the inbound message shape the panel delivers it
in: a `message` envelope with subject `"zwave"` carrying the response. -/
def pageMsg (r : Response) : InMessage :=
  { message := some { response := some r, subject := some "zwave" }, msg := none }

/-- Holds when no response of the list except possibly the last carries
`page_flag = "0"` (i.e. the pagination only completes, if at all, on the
final message of the sequence). -/
def noEarlyFinal : List Response → Bool
  | [] => true
  | [_] => true
  | r :: r2 :: rest => (r.page_flag != some "0") && noEarlyFinal (r2 :: rest)

/-- How one page updates the accumulated device list, read off the
`getAllDevices` handler: a `clear_flag` of `"1"` empties the list first,
then the page's `DevicesList` entries are appended in order. -/
def accumPage (ds : List Device) (r : Response) : List Device :=
  (if r.clear_flag = some "1" then [] else ds) ++ (r.DevicesList.getD [])

/-- The device list asserted by claim C1, written from the claim's own
wording for comparison with the source-embedded handler: the concatenation
of the pages' `DevicesList` payloads with duplicates by `DevId` resolved to
the last-seen entry, a `clear_flag` of `"1"` resetting the accumulation to
empty before that page's entries. -/
def claimedDeviceList (pages : List Response) : List Device :=
  pages.foldl
    (fun acc r =>
      (r.DevicesList.getD []).foldl mergeDevice
        (if r.clear_flag = some "1" then [] else acc))
    []

/-! ## The Client.login sequence

The three-step HTTP sequence: service discovery (`userReg`), credentialed
login (`userLogin`), then `getUserInfo` for the display alias.  The network
is modelled as an oracle fixing the data of the three responses; `login` is
a pure function of the oracle, returning both the list of requests it
actually issued and its outcome (a constructed client, or the thrown
`resp.data` of the last response received). -/

/-- The `uibReturn` object of the discovery response.  `ReturnStatus`
models the JSON field `"Return status"`. -/
structure UibData where
  ReturnStatus : Option String := none
  uacIP : String := ""
  token : String := ""
deriving DecidableEq

/-- Data of the discovery response (its `resp.data`). -/
structure DiscData where
  uibReturn : Option UibData := none
deriving DecidableEq

/-- Data of the `userLogin` response (its `resp.data`, when truthy). -/
structure AuthData where
  status : Option String := none
  token : String := ""
deriving DecidableEq

/-- Data of the `getUserInfo` response (its `resp.data`, when truthy);
`userAlias` is the `user.userAlias` field. -/
structure UserData where
  status : Option String := none
  userAlias : String := ""
deriving DecidableEq

/-- The network's answers to the three requests `login` can issue.  The
`auth` and `user` bodies are `Option`-valued because the source guards them
with a truthiness test (`resp.data && ...`). -/
structure LoginOracle where
  discovery : DiscData
  auth : Option AuthData := none
  user : Option UserData := none
deriving DecidableEq

/-- The HTTP requests `login` can issue, in order. -/
inductive LoginStep
  | discoveryReq
  | loginReq
  | userInfoReq
deriving DecidableEq

/-- The `resp.data` value thrown when `login` fails, tagged by which
response it came from. -/
inductive Thrown
  | disc (d : DiscData)
  | auth (d : Option AuthData)
  | user (d : Option UserData)
deriving DecidableEq

/-- The fields of the `Client` object a successful `login` constructs that
the embedding tracks: the username, the alias from `getUserInfo`, and the
session token from the `userLogin` response. -/
structure ClientData where
  username : String
  Alias : String
  token : String
deriving DecidableEq

/-- Embedding of `Client.login` over a network oracle: issue discovery; if its
`uibReturn` is present with `"Return status"` `"200"`, issue the login
request; if that response's data is truthy with status `"200"`, capture the
token and issue `getUserInfo`; if that too returns status `"200"`,
construct the client; on any failed check, throw the data of the last
response received. -/
def login (username : String) (o : LoginOracle) :
    List LoginStep × Except Thrown ClientData :=
  match o.discovery.uibReturn with
  | some uib =>
    if uib.ReturnStatus = some "200" then
      match o.auth with
      | some a =>
        if a.status = some "200" then
          let token := a.token
          match o.user with
          | some u =>
            if u.status = some "200" then
              ([.discoveryReq, .loginReq, .userInfoReq],
               .ok { username := username, Alias := u.userAlias, token := token })
            else
              ([.discoveryReq, .loginReq, .userInfoReq], .error (.user (some u)))
          | none => ([.discoveryReq, .loginReq, .userInfoReq], .error (.user none))
        else ([.discoveryReq, .loginReq], .error (.auth (some a)))
      | none => ([.discoveryReq, .loginReq], .error (.auth none))
    else ([.discoveryReq], .error (.disc o.discovery))
  | none => ([.discoveryReq], .error (.disc o.discovery))

/-! ## Concrete scenario inputs

Concrete devices, messages, states and oracles used to exercise the
embedded code on explicit inputs. -/

/-- A device with id `"A"`, first version. -/
def dupDev1 : Device := { DevId := "A", DevName := "first" }

/-- A second device carrying the same id `"A"` but a different name. -/
def dupDev2 : Device := { DevId := "A", DevName := "second" }

/-- A single complete device-list page that clears the list and delivers
two entries sharing the id `"A"`. -/
def dupPage : Response :=
  { action := some "get_all_devices", clear_flag := some "1",
    DevicesList := some [dupDev1, dupDev2], page_flag := some "0" }

/-- The connection state after a `getAllDevices()` call with request id 0
on a fresh connection. -/
def regState : ConnState :=
  (OpStep.effect initConnState (.callGetAllDevices 0)).1

/-- A non-final device-list page delivering one entry. -/
def firstPg : Response :=
  { action := some "get_all_devices", page_flag := some "1",
    DevicesList := some [dupDev1] }

/-- A final device-list page that clears the accumulated list before
delivering its single entry. -/
def secondPg : Response :=
  { action := some "get_all_devices", clear_flag := some "1",
    page_flag := some "0", DevicesList := some [dupDev2] }

/-- The broker's greeting message `{msg: "online"}`: no `message` envelope. -/
def onlineMsg : InMessage := { msg := some "online" }

/-- An inbound response whose action `"set_scene_current"` has no entry in
the constructor-installed handler map. -/
def unmappedActionMsg : InMessage :=
  pageMsg { action := some "set_scene_current", status := some "ok" }

/-- The connection state after a `setAlarmState(Armed)` call with request
id 4 on a fresh connection. -/
def setRegState : ConnState :=
  (OpStep.effect initConnState (.callSetAlarmState 4 .Armed)).1

/-- A successful acknowledgement of `set_scene_current`. -/
def ackOkResp : Response := { action := some "set_scene_current", status := some "ok" }

/-- A failed acknowledgement of `set_scene_current`. -/
def ackFailResp : Response := { action := some "set_scene_current", status := some "fail" }

/-- An unsolicited alarm broadcast. -/
def alarmResp : Response := { status := some "alarm" }

/-- An alarm-subject inbound message. -/
def alarmMsg : InMessage :=
  { message := some { response := some alarmResp, subject := some "Alarm" }, msg := none }

/-- The connection state after a `getCurrentAlarmState()` call with request
id 7 on a fresh connection. -/
def pendingSceneState : ConnState :=
  (OpStep.effect initConnState (.callGetCurrentAlarmState 7)).1

/-- A `SceneUpdate` response reporting scene 3 with the alarm flag set. -/
def sceneResp : Response :=
  { action := some "SceneUpdate", CurrentSceneId := some "3", AlarmState := some "1" }

/-- A network oracle on which discovery and the credentialed login both
succeed (the login step returns status `"200"` with token `"ABC"`) but the
`getUserInfo` step returns status `"500"`. -/
def userFailOracle : LoginOracle :=
  { discovery := { uibReturn := some { ReturnStatus := some "200", uacIP := "1.2.3.4", token := "T" } }
    auth := some { status := some "200", token := "ABC" }
    user := some { status := some "500" } }

/-- A network oracle on which all three steps succeed. -/
def allOkOracle : LoginOracle :=
  { discovery := { uibReturn := some { ReturnStatus := some "200", uacIP := "1.2.3.4", token := "T" } }
    auth := some { status := some "200", token := "ABC" }
    user := some { status := some "200", userAlias := "Alice" } }

/-- A network oracle whose discovery step fails with status `"500"`. -/
def discFailOracle : LoginOracle :=
  { discovery := { uibReturn := some { ReturnStatus := some "500" } } }

/-- Discovery succeeded: `uibReturn` present with `"Return status"` `"200"`. -/
def discoverySuccess (o : LoginOracle) : Prop :=
  ∃ uib, o.discovery.uibReturn = some uib ∧ uib.ReturnStatus = some "200"

/-- The credentialed login step succeeded: truthy data with status `"200"`. -/
def authSuccess (o : LoginOracle) : Prop :=
  ∃ a, o.auth = some a ∧ a.status = some "200"

/-- The `getUserInfo` step succeeded: truthy data with status `"200"`. -/
def userSuccess (o : LoginOracle) : Prop :=
  ∃ u, o.user = some u ∧ u.status = some "200"

/-! ## Lemmas about page processing -/

/-- Processing a non-final device-list page while a `getAllDevices` handler
is registered appends the page's entries (after an optional clear) and
changes nothing else. -/
theorem processMessage_page_notfinal (s : ConnState) (rid : Nat) (r : Response)
    (hreg : s.handlers "get_all_devices" = some (.getAllDevices rid))
    (hact : r.action = some "get_all_devices")
    (hfin : r.page_flag ≠ some "0") :
    processMessage s (pageMsg r) = ({ s with devices := accumPage s.devices r }, []) := by
  simp only [processMessage, pageMsg, actionKey, hact, Option.getD_some, hreg]
  simp only [Option.some.injEq, String.reduceEq, if_false, reduceCtorEq, ite_false]
  cases hdl : r.DevicesList with
  | none =>
    simp [runHandler, handlerFuel, hdl, hfin, accumPage]
  | some l =>
    simp [runHandler, handlerFuel, hdl, hfin, accumPage]

/-- Processing the final device-list page (page flag `"0"`) appends the
page's entries, resets the handler slot to `ignore_message`, and resolves
the pending promise with the accumulated list. -/
theorem processMessage_page_final (s : ConnState) (rid : Nat) (r : Response)
    (hreg : s.handlers "get_all_devices" = some (.getAllDevices rid))
    (hact : r.action = some "get_all_devices")
    (hfin : r.page_flag = some "0") :
    processMessage s (pageMsg r) =
      ({ s with devices := accumPage s.devices r,
                handlers := setHandler s.handlers "get_all_devices" .ignore },
       [Event.resolvedDevices rid (accumPage s.devices r)]) := by
  simp only [processMessage, pageMsg, actionKey, hact, Option.getD_some, hreg]
  simp only [Option.some.injEq, String.reduceEq, if_false, reduceCtorEq, ite_false]
  cases hdl : r.DevicesList with
  | none =>
    simp [runHandler, handlerFuel, hdl, hfin, accumPage]
  | some l =>
    simp [runHandler, handlerFuel, hdl, hfin, accumPage]

/-! ## Claim C1 -/

/-- C1, counterexample.  The claim asserts that the device list after
processing equals the pages' payloads with duplicates by `DevId` resolved
to the last-seen entry.  The `getAllDevices` handler performs no
deduplication (unlike the separate `update_devices` handler): a single
cleared page delivering two distinct entries that share `DevId` `"A"`
leaves both in the list, while the claimed list keeps only the last. -/
theorem getAllDevices_dedup_counterexample :
    (processMessage regState (pageMsg dupPage)).1.devices = [dupDev1, dupDev2] ∧
    claimedDeviceList [dupPage] = [dupDev2] ∧
    dupDev1 ≠ dupDev2 := by
  decide

/-- C1, amended.  For every sequence of paginated `get_all_devices`
response messages processed by a registered `getAllDevices` handler (the
pagination completing, if at all, only on the last message), the in-memory
device list afterwards equals the fold of the pages over the accumulation
step: a message carrying `clear_flag` `"1"` resets the list to empty before
that message's entries are accumulated, and each page's `DevicesList`
entries are then appended in order, duplicates by `DevId` being kept, not
resolved. -/
theorem getAllDevices_accumulates_pages (s : ConnState) (rid : Nat) (pages : List Response)
    (hreg : s.handlers "get_all_devices" = some (.getAllDevices rid))
    (hact : ∀ r ∈ pages, r.action = some "get_all_devices")
    (hflag : noEarlyFinal pages = true) :
    (run s (pages.map (fun r => OpStep.inbound (pageMsg r)))).1.devices
      = pages.foldl accumPage s.devices := by
  induction pages generalizing s with
  | nil => simp [run]
  | cons r rest ih =>
    have hact1 : r.action = some "get_all_devices" := hact r (by simp)
    cases rest with
    | nil =>
      by_cases hfin : r.page_flag = some "0"
      · simp [run, OpStep.effect, processMessage_page_final s rid r hreg hact1 hfin]
      · simp [run, OpStep.effect, processMessage_page_notfinal s rid r hreg hact1 hfin]
    | cons r2 rest2 =>
      have hflag2 : ((r.page_flag != some "0") && noEarlyFinal (r2 :: rest2)) = true := hflag
      rw [Bool.and_eq_true] at hflag2
      have hfin : r.page_flag ≠ some "0" := by
        simpa [bne_iff_ne] using hflag2.1
      simp only [List.map_cons, run, OpStep.effect,
        processMessage_page_notfinal s rid r hreg hact1 hfin, List.foldl_cons]
      simpa using ih { s with devices := accumPage s.devices r } hreg
        (fun q hq => hact q (by simp [hq])) hflag2.2

/-- C1 amended, witness: a two-page sequence whose second page carries the
clear flag; the stateful run agrees with the pure accumulation fold (the
clear discards the first page's entry, leaving only the second's). -/
theorem getAllDevices_accumulates_witness :
    (run regState ([firstPg, secondPg].map (fun r => OpStep.inbound (pageMsg r)))).1.devices
      = [firstPg, secondPg].foldl accumPage regState.devices ∧
    [firstPg, secondPg].foldl accumPage regState.devices = [dupDev2] :=
  ⟨getAllDevices_accumulates_pages regState 0 [firstPg, secondPg]
      (by decide) (by decide) (by decide),
   by decide⟩

/-! ## Claim C7 -/

/-- C7.  A `getAllDevices` call on a fresh connection whose response
sequence is exactly two pages — page 1 with `page_flag` `"1"` and two
devices, page 2 with `page_flag` `"0"` and one device — resolves the
pending promise with exactly those three devices, in page-arrival order. -/
theorem two_page_listing_resolves_three (d1 d2 d3 : Device) :
    run regState
      [OpStep.inbound (pageMsg { action := some "get_all_devices", page_flag := some "1",
                                 DevicesList := some [d1, d2] }),
       OpStep.inbound (pageMsg { action := some "get_all_devices", page_flag := some "0",
                                 DevicesList := some [d3] })]
      = ({ regState with devices := [d1, d2, d3],
                         handlers := setHandler regState.handlers "get_all_devices" .ignore },
         [Event.resolvedDevices 0 [d1, d2, d3]]) := by
  rfl

/-! ## Claim C9 -/

/-- C9.  An inbound message whose subject is `"Alarm"` is emitted as an
`'alarm'` event carrying its response, and the connection state — the
handlers map and the `model`, `online`, `devices` and `alarm` fields — is
returned unchanged (the alarm branch precedes, and therefore bypasses, all
handler dispatch). -/
theorem alarm_subject_emits_without_state_change (s : ConnState) (m : InMessage)
    (body : MessageBody) (resp : Response)
    (hm : m.message = some body) (hr : body.response = some resp)
    (hsub : body.subject = some "Alarm") :
    processMessage s m = (s, [Event.alarmEmitted resp]) := by
  simp [processMessage, hm, hr, hsub]

/-- C9, witness: the concrete alarm broadcast on a fresh connection. -/
theorem alarm_subject_witness :
    processMessage initConnState alarmMsg = (initConnState, [Event.alarmEmitted alarmResp]) :=
  alarm_subject_emits_without_state_change initConnState alarmMsg
    { response := some alarmResp, subject := some "Alarm" } alarmResp rfl rfl rfl

/-! ## Lemma on set_scene_current acknowledgements (shared by C3 and C6) -/

/-- Processing the acknowledgement of a `setAlarmState(newState)` request:
on status `"ok"` the stored alarm state becomes `{State: newState, Alarm:
false}` and the promise resolves `true`; on any other status the state is
unchanged and the promise rejects with the response. -/
theorem processMessage_setScene (s : ConnState) (m : InMessage) (body : MessageBody)
    (resp : Response) (rid : Nat) (ns : ArmState)
    (hreg : s.handlers "set_scene_current" = some (.setSceneCurrent rid ns))
    (hm : m.message = some body) (hr : body.response = some resp)
    (hsub : body.subject ≠ some "Alarm")
    (hact : resp.action = some "set_scene_current") :
    processMessage s m =
      if resp.status = some "ok" then
        ({ s with alarm := some { State := ns.toInt, Alarm := false } },
         [Event.resolvedTrue rid])
      else (s, [Event.rejected rid resp]) := by
  simp only [processMessage, hm, hr, hsub, actionKey, hact, Option.getD_some, hreg,
    if_neg hsub]
  simp [runHandler, handlerFuel, hm, hr]

/-! ## Claim C3 -/

/-- C3.  For a pending `setAlarmState(newState)` request: when the
acknowledging `set_scene_current` response has status `"ok"`, the stored
alarm state becomes `{State: newState, Alarm: false}` and the promise
resolves `true`; when the response carries any other status, the stored
state (indeed the whole connection state) is left unchanged and the promise
rejects. -/
theorem setAlarmState_ack_semantics (s : ConnState) (m : InMessage) (body : MessageBody)
    (resp : Response) (rid : Nat) (ns : ArmState)
    (hreg : s.handlers "set_scene_current" = some (.setSceneCurrent rid ns))
    (hm : m.message = some body) (hr : body.response = some resp)
    (hsub : body.subject ≠ some "Alarm")
    (hact : resp.action = some "set_scene_current") :
    (resp.status = some "ok" →
      processMessage s m =
        ({ s with alarm := some { State := ns.toInt, Alarm := false } },
         [Event.resolvedTrue rid])) ∧
    (resp.status ≠ some "ok" →
      processMessage s m = (s, [Event.rejected rid resp])) := by
  rw [processMessage_setScene s m body resp rid ns hreg hm hr hsub hact]
  constructor
  · intro hok; rw [if_pos hok]
  · intro hbad; rw [if_neg hbad]

/-- C3, witness: a concrete successful acknowledgement of
`setAlarmState(Armed)` on a fresh connection. -/
theorem setAlarmState_ack_witness :
    processMessage setRegState (pageMsg ackOkResp) =
      ({ setRegState with alarm := some { State := 3, Alarm := false } },
       [Event.resolvedTrue 4]) :=
  (setAlarmState_ack_semantics setRegState (pageMsg ackOkResp)
    { response := some ackOkResp, subject := some "zwave" } ackOkResp 4 .Armed
    (by decide) rfl rfl (by decide) rfl).1 rfl

/-! ## Claim C10 -/

/-- C10.  Processing an inbound response with action `"SceneUpdate"` (the
constructor-installed handler being in place) stores
`{State: Number(CurrentSceneId), Alarm: AlarmState === "1"}` in the
connection's alarm field and emits a `'state'` event carrying exactly that
value, whether or not a `getCurrentAlarmState` request is pending: with the
`"get_scene_current"` slot at its `ignore_message` default nothing further
happens, and with a pending `getCurrentAlarmState` handler the slot resets
to `ignore_message` and the pending promise resolves with exactly that
value. -/
theorem sceneUpdate_updates_alarm_and_resolves (s : ConnState) (m : InMessage)
    (body : MessageBody) (resp : Response)
    (hscene : s.handlers "SceneUpdate" = some .sceneUpdate)
    (hm : m.message = some body) (hr : body.response = some resp)
    (hsub : body.subject ≠ some "Alarm")
    (hact : resp.action = some "SceneUpdate") :
    (s.handlers "get_scene_current" = some .ignore →
      processMessage s m =
        ({ s with alarm := some { State := jsNumber resp.CurrentSceneId,
                                  Alarm := resp.AlarmState == some "1" } },
         [Event.stateEmitted { State := jsNumber resp.CurrentSceneId,
                               Alarm := resp.AlarmState == some "1" }])) ∧
    (∀ rid, s.handlers "get_scene_current" = some (.getSceneCurrent rid) →
      processMessage s m =
        ({ s with alarm := some { State := jsNumber resp.CurrentSceneId,
                                  Alarm := resp.AlarmState == some "1" },
                  handlers := setHandler s.handlers "get_scene_current" .ignore },
         [Event.stateEmitted { State := jsNumber resp.CurrentSceneId,
                               Alarm := resp.AlarmState == some "1" },
          Event.resolvedState rid (some { State := jsNumber resp.CurrentSceneId,
                                          Alarm := resp.AlarmState == some "1" })])) := by
  constructor
  · intro hslot
    simp only [processMessage, hm, hr, if_neg hsub, actionKey, hact, Option.getD_some, hscene]
    simp [runHandler, handlerFuel, hm, hr, hslot]
  · intro rid hslot
    simp only [processMessage, hm, hr, if_neg hsub, actionKey, hact, Option.getD_some, hscene]
    simp [runHandler, handlerFuel, hm, hr, hslot, hact]

/-- C10, witness: the concrete `SceneUpdate` reporting scene 3 with the
alarm flag raised, arriving while `getCurrentAlarmState` request 7 is
pending. -/
theorem sceneUpdate_witness :
    processMessage pendingSceneState (pageMsg sceneResp) =
      ({ pendingSceneState with alarm := some { State := 3, Alarm := true },
                                handlers := setHandler pendingSceneState.handlers
                                  "get_scene_current" .ignore },
       [Event.stateEmitted { State := 3, Alarm := true },
        Event.resolvedState 7 (some { State := 3, Alarm := true })]) := by
  have h := (sceneUpdate_updates_alarm_and_resolves pendingSceneState (pageMsg sceneResp)
    { response := some sceneResp, subject := some "zwave" } sceneResp
    (by decide) rfl rfl (by decide) rfl).2 7 (by decide)
  have e1 : jsNumber sceneResp.CurrentSceneId = 3 := by decide
  have e2 : (sceneResp.AlarmState == some "1") = true := by decide
  rw [e1, e2] at h
  exact h

/-! ## Claim C2 -/

/-- C2, counterexample.  The claim asserts (a) that a message carrying an
action in its response invokes the entry of the action-to-handler mapping
for that action, the mapping defaulting to a no-op for actions the caller
has not asked about, and (b) that any message matching neither the action
shape nor the alarm shape is logged and discarded.  Both parts fail on the
code: a response with action `"set_scene_current"` before any
`setAlarmState` call finds no entry at all (no no-op default exists for it)
and is logged as unhandled instead of being dispatched, and the broker
greeting `{msg: "online"}` — which matches neither shape — is silently
discarded without being logged. -/
theorem dispatch_claim_counterexample :
    (processMessage initConnState unmappedActionMsg
      = (initConnState, [Event.loggedUnhandled])) ∧
    unmappedActionMsg.message
      = some { response := some { action := some "set_scene_current", status := some "ok" },
               subject := some "zwave" } ∧
    initConnState.handlers "set_scene_current" = none ∧
    (processMessage initConnState onlineMsg = (initConnState, [])) ∧
    onlineMsg.message = none ∧ onlineMsg.msg = some "online" := by
  refine ⟨?_, rfl, by decide, ?_, rfl, rfl⟩
  · simp [processMessage, unmappedActionMsg, pageMsg, actionKey, initConnState, initHandlers]
  · simp [processMessage, onlineMsg]

/-- C2, amended.  Dispatch of an inbound parsed message: a message carrying
a `response` whose subject is `"Alarm"` bypasses action dispatch and is
emitted directly as an `'alarm'` event; otherwise, when the handlers
mapping has an entry for the response's action — the constructor
pre-installs no-op entries for `device_info`, `get_all_devices` and
`get_scene_current` — that entry is invoked, and when it has none (as for
`set_scene_current` before any `setAlarmState` call) the message is logged
and discarded without error; a message carrying no `response` is silently
discarded when its top-level `msg` field is `"online"` and logged and
discarded without error otherwise. -/
theorem dispatch_characterization (s : ConnState) (m : InMessage) :
    (∀ body resp, m.message = some body → body.response = some resp →
      (body.subject = some "Alarm" →
        processMessage s m = (s, [Event.alarmEmitted resp])) ∧
      (body.subject ≠ some "Alarm" →
        (∀ h, s.handlers (actionKey resp) = some h →
          processMessage s m = runHandler handlerFuel h s m) ∧
        (s.handlers (actionKey resp) = none →
          processMessage s m = (s, [Event.loggedUnhandled])))) ∧
    ((m.message = none ∨ ∃ body, m.message = some body ∧ body.response = none) →
      (m.msg = some "online" → processMessage s m = (s, [])) ∧
      (m.msg ≠ some "online" → processMessage s m = (s, [Event.loggedUnknown]))) ∧
    initHandlers "device_info" = some .ignore ∧
    initHandlers "get_all_devices" = some .ignore ∧
    initHandlers "get_scene_current" = some .ignore := by
  refine ⟨?_, ?_, by decide, by decide, by decide⟩
  · intro body resp hm hr
    refine ⟨fun hsub => by simp [processMessage, hm, hr, hsub], fun hsub => ⟨?_, ?_⟩⟩
    · intro h hh
      simp [processMessage, hm, hr, if_neg hsub, hh]
    · intro hh
      simp [processMessage, hm, hr, if_neg hsub, hh]
  · rintro (hm | ⟨body, hm, hr⟩)
    · exact ⟨fun ho => by simp [processMessage, hm, ho],
             fun ho => by simp [processMessage, hm, ho]⟩
    · exact ⟨fun ho => by simp [processMessage, hm, hr, ho],
             fun ho => by simp [processMessage, hm, hr, ho]⟩

/-- C2 amended, witness: the alarm broadcast takes the alarm branch on the
fresh connection. -/
theorem dispatch_characterization_witness :
    processMessage initConnState alarmMsg = (initConnState, [Event.alarmEmitted alarmResp]) :=
  ((dispatch_characterization initConnState alarmMsg).1
    { response := some alarmResp, subject := some "Alarm" } alarmResp rfl rfl).1 rfl

/-! ## Claim C5 -/

/-- C5, counterexample.  The claim asserts that a session token is withheld
(`login` throws instead of returning a client) only when the login step's
status is non-success.  On the embedded code a third step exists: after a
successful `userLogin`, `login` issues `getUserInfo` and throws when that
response's status is not `"200"`.  On `userFailOracle` the login step
returns status `"200"` with token `"ABC"`, yet `login` throws the
`getUserInfo` response body. -/
theorem login_userinfo_throw_counterexample :
    (login "user" userFailOracle).1
      = [LoginStep.discoveryReq, LoginStep.loginReq, LoginStep.userInfoReq] ∧
    (login "user" userFailOracle).2
      = Except.error (Thrown.user (some { status := some "500" })) ∧
    userFailOracle.auth = some { status := some "200", token := "ABC" } :=
  ⟨rfl, rfl, rfl⟩

/-- C5, amended.  When the service-discovery step returns a non-success
status (`uibReturn` absent or its `"Return status"` not `"200"`), the
credentialed login request is never issued — the only request made is the
discovery one — and `login` throws the discovery body.  A client (hence a
session token) is returned exactly when all three statuses are successes:
discovery, the login step, and the subsequent `getUserInfo` step; so a
token is withheld when any of the three — not only the login step — is a
non-success. -/
theorem login_characterization (username : String) (o : LoginOracle) :
    (¬ discoverySuccess o →
      (login username o).1 = [LoginStep.discoveryReq] ∧
      (login username o).2 = Except.error (Thrown.disc o.discovery)) ∧
    ((∃ c, (login username o).2 = Except.ok c) ↔
      discoverySuccess o ∧ authSuccess o ∧ userSuccess o) := by
  refine ⟨?_, ?_, ?_⟩
  · intro hnd
    rcases hd : o.discovery.uibReturn with _ | uib
    · constructor <;> simp [login, hd]
    · have hst : uib.ReturnStatus ≠ some "200" := fun h => hnd ⟨uib, hd, h⟩
      constructor <;> simp [login, hd, hst]
  · rintro ⟨c, hc⟩
    rcases hd : o.discovery.uibReturn with _ | uib
    · simp [login, hd] at hc
    · by_cases hst : uib.ReturnStatus = some "200"
      · rcases ha : o.auth with _ | a
        · simp [login, hd, hst, ha] at hc
        · by_cases has : a.status = some "200"
          · rcases hu : o.user with _ | u
            · simp [login, hd, hst, ha, has, hu] at hc
            · by_cases hus : u.status = some "200"
              · exact ⟨⟨uib, hd, hst⟩, ⟨a, ha, has⟩, ⟨u, hu, hus⟩⟩
              · simp [login, hd, hst, ha, has, hu, hus] at hc
          · simp [login, hd, hst, ha, has] at hc
      · simp [login, hd, hst] at hc
  · rintro ⟨⟨uib, hd, hst⟩, ⟨a, ha, has⟩, ⟨u, hu, hus⟩⟩
    refine ⟨{ username := username, Alias := u.userAlias, token := a.token }, ?_⟩
    simp [login, hd, hst, ha, has, hu, hus]

/-- C5 amended, witness: all three steps succeed on `allOkOracle`, so a
client is returned; and the failed-discovery oracle never reaches the
login request. -/
theorem login_characterization_witness :
    (∃ c, (login "user" allOkOracle).2 = Except.ok c) ∧
    (login "user" discFailOracle).1 = [LoginStep.discoveryReq] :=
  ⟨(login_characterization "user" allOkOracle).2.mpr
      ⟨⟨_, rfl, rfl⟩, ⟨_, rfl, rfl⟩, ⟨_, rfl, rfl⟩⟩,
   ((login_characterization "user" discFailOracle).1
      (by simp [discoverySuccess, discFailOracle])).1⟩

/-! ## Claim C8 -/

/-- C8.  Publishing a `buildK1ActionMessage(subject, request)` message via
`send` publishes, on exactly the topic `"00s/01/x/300/" ++ deviceID ++
"/post/111"`, the JSON serialisation of the envelope
`{message: {type: "broadcast", to: deviceID, from: clientId, username:
alias, ack_mark: "0", subject: subject, request: request}}` — the envelope
is spelled out field by field in the statement, and the second conjunct
exhibits the fully serialised payload string on a concrete connection and
request.  `send` performs the publish and nothing else — it reads no
handler state and awaits no acknowledgement, which is why its embedding is
a pure function of the connection's identity data and the message. -/
theorem send_publishes_envelope (c : ConnConfig) (subject : String) (request : Json) :
    send c (buildK1ActionMessage c subject request) =
      { topic := "00s/01/x/300/" ++ c.deviceID ++ "/post/111"
        payload := Json.stringify (Json.obj [("message", Json.obj
          [("type", Json.str "broadcast"),
           ("to", Json.str c.deviceID),
           ("from", Json.str c.clientId),
           ("username", Json.str c.Alias),
           ("ack_mark", Json.str "0"),
           ("subject", Json.str subject),
           ("request", request)])]) } ∧
    send { deviceID := "DEV123", clientId := "android_42", Alias := "alice", username := "u" }
      (buildK1ActionMessage
        { deviceID := "DEV123", clientId := "android_42", Alias := "alice", username := "u" }
        "zwave" (Json.obj [("action", Json.str "get_all_devices"), ("status", Json.str "ok")]))
      = { topic := "00s/01/x/300/DEV123/post/111"
          payload := "\x7b\"message\":\x7b\"type\":\"broadcast\",\"to\":\"DEV123\",\"from\":\"android_42\",\"username\":\"alice\",\"ack_mark\":\"0\",\"subject\":\"zwave\",\"request\":\x7b\"action\":\"get_all_devices\",\"status\":\"ok\"\x7d\x7d\x7d" } :=
  ⟨rfl, rfl⟩

/-! ## Request-id tracking lemmas (for C4 and C6) -/

/-- A state with the same handlers map is `ridFree` for the same ids. -/
theorem ridFree_of_handlers_eq {rid : Nat} {s s2 : ConnState}
    (h : s2.handlers = s.handlers) (hs : ridFree rid s) : ridFree rid s2 := by
  intro k g hk
  rw [h] at hk
  exact hs k g hk

/-- Storing a handler that does not settle `rid` preserves `ridFree`. -/
theorem ridFree_setHandler {rid : Nat} {s : ConnState} (hs : ridFree rid s)
    (k : String) (v : Handler) (hv : v.rid ≠ some rid) :
    ridFree rid { s with handlers := setHandler s.handlers k v } := by
  intro k2 g hk2
  simp only [setHandler] at hk2
  by_cases he : k2 = k
  · rw [if_pos he] at hk2
    cases hk2
    exact hv
  · rw [if_neg he] at hk2
    exact hs k2 g hk2

/-- Running any handler that does not settle request `rid`, from a state
whose handler map holds no closure for `rid`, neither settles `rid` nor
reintroduces a closure for it: inbound messages can only settle the
requests whose closures the map currently holds. -/
theorem runHandler_ridFree_no_settle (rid : Nat) :
    ∀ (fuel : Nat) (h : Handler) (s : ConnState) (m : InMessage),
      h.rid ≠ some rid → ridFree rid s →
      ridFree rid (runHandler fuel h s m).1 ∧
      ∀ e ∈ (runHandler fuel h s m).2, e.settledRid ≠ some rid := by
  intro fuel
  induction fuel with
  | zero =>
    intro h s m hh hs
    cases h with
    | ignore => exact ⟨hs, by simp [runHandler]⟩
    | sceneUpdate => exact ⟨hs, by simp [runHandler]⟩
    | statusInfo =>
      cases hm : m.message with
      | none =>
        simp only [runHandler, hm]
        exact ⟨hs, by simp⟩
      | some body =>
        cases hr : body.response with
        | none =>
          simp only [runHandler, hm, hr]
          exact ⟨hs, by simp⟩
        | some resp =>
          simp only [runHandler, hm, hr]
          exact ⟨ridFree_of_handlers_eq rfl hs, by simp [Event.settledRid]⟩
    | updateDevices =>
      cases hm : m.message with
      | none =>
        simp only [runHandler, hm]
        exact ⟨hs, by simp⟩
      | some body =>
        cases hr : body.response with
        | none =>
          simp only [runHandler, hm, hr]
          exact ⟨hs, by simp⟩
        | some resp =>
          cases hdl : resp.DevicesList with
          | none => exact ⟨by simpa [runHandler, hm, hr, hdl] using hs, by simp [runHandler, hm, hr, hdl]⟩
          | some l =>
            simp only [runHandler, hm, hr, hdl]
            exact ⟨ridFree_of_handlers_eq rfl hs, by simp⟩
    | getAllDevices rid2 =>
      cases hm : m.message with
      | none =>
        simp only [runHandler, hm]
        exact ⟨hs, by simp⟩
      | some body =>
        cases hr : body.response with
        | none =>
          simp only [runHandler, hm, hr]
          exact ⟨hs, by simp⟩
        | some resp =>
          have hne : some rid2 ≠ some rid := by simpa [Handler.rid] using hh
          by_cases hfin : resp.page_flag = some "0"
          · simp only [runHandler, hm, hr, if_pos hfin]
            refine ⟨?_, by simpa [Event.settledRid] using hne⟩
            exact ridFree_setHandler (ridFree_of_handlers_eq rfl hs) _ _ (by simp [Handler.rid])
          · simp only [runHandler, hm, hr, if_neg hfin]
            exact ⟨ridFree_of_handlers_eq rfl hs, by simp⟩
    | getSceneCurrent rid2 =>
      cases hm : m.message with
      | none =>
        simp only [runHandler, hm]
        exact ⟨hs, by simp⟩
      | some body =>
        cases hr : body.response with
        | none =>
          simp only [runHandler, hm, hr]
          exact ⟨hs, by simp⟩
        | some resp =>
          have hne : some rid2 ≠ some rid := by simpa [Handler.rid] using hh
          by_cases hsc : resp.action == some "SceneUpdate"
          · simp only [runHandler, hm, hr, if_pos hsc]
            refine ⟨?_, by simpa [Event.settledRid] using hne⟩
            exact ridFree_setHandler hs _ _ (by simp [Handler.rid])
          · simp only [runHandler, hm, hr, if_neg hsc]
            exact ⟨hs, by simp⟩
    | setSceneCurrent rid2 ns =>
      cases hm : m.message with
      | none =>
        simp only [runHandler, hm]
        exact ⟨hs, by simp⟩
      | some body =>
        cases hr : body.response with
        | none =>
          simp only [runHandler, hm, hr]
          exact ⟨hs, by simp⟩
        | some resp =>
          have hne : some rid2 ≠ some rid := by simpa [Handler.rid] using hh
          by_cases hok : resp.status == some "ok"
          · simp only [runHandler, hm, hr, if_pos hok]
            exact ⟨ridFree_of_handlers_eq rfl hs, by simpa [Event.settledRid] using hne⟩
          · simp only [runHandler, hm, hr, if_neg hok]
            exact ⟨hs, by simpa [Event.settledRid] using hne⟩
  | succ fuel ih =>
    intro h s m hh hs
    cases h with
    | ignore => exact ⟨hs, by simp [runHandler]⟩
    | sceneUpdate =>
      cases hm : m.message with
      | none =>
        simp only [runHandler, hm]
        exact ⟨hs, by simp⟩
      | some body =>
        cases hr : body.response with
        | none =>
          simp only [runHandler, hm, hr]
          exact ⟨hs, by simp⟩
        | some resp =>
          simp only [runHandler, hm, hr]
          cases hcb : s.handlers "get_scene_current" with
          | none =>
            simp only [hcb]
            exact ⟨ridFree_of_handlers_eq rfl hs, by simp [Event.settledRid]⟩
          | some cb =>
            simp only [hcb]
            have hcbrid : cb.rid ≠ some rid := hs _ cb hcb
            have hrec := ih cb
              ({ s with alarm := some { State := jsNumber resp.CurrentSceneId, Alarm := resp.AlarmState == some "1" } } : ConnState)
              m hcbrid (ridFree_of_handlers_eq rfl hs)
            refine ⟨hrec.1, ?_⟩
            intro e he
            rcases List.mem_cons.mp he with he | he
            · subst he; simp [Event.settledRid]
            · exact hrec.2 e he
    | statusInfo =>
      cases hm : m.message with
      | none =>
        simp only [runHandler, hm]
        exact ⟨hs, by simp⟩
      | some body =>
        cases hr : body.response with
        | none =>
          simp only [runHandler, hm, hr]
          exact ⟨hs, by simp⟩
        | some resp =>
          simp only [runHandler, hm, hr]
          exact ⟨ridFree_of_handlers_eq rfl hs, by simp [Event.settledRid]⟩
    | updateDevices =>
      cases hm : m.message with
      | none =>
        simp only [runHandler, hm]
        exact ⟨hs, by simp⟩
      | some body =>
        cases hr : body.response with
        | none =>
          simp only [runHandler, hm, hr]
          exact ⟨hs, by simp⟩
        | some resp =>
          cases hdl : resp.DevicesList with
          | none => exact ⟨by simpa [runHandler, hm, hr, hdl] using hs, by simp [runHandler, hm, hr, hdl]⟩
          | some l =>
            simp only [runHandler, hm, hr, hdl]
            exact ⟨ridFree_of_handlers_eq rfl hs, by simp⟩
    | getAllDevices rid2 =>
      cases hm : m.message with
      | none =>
        simp only [runHandler, hm]
        exact ⟨hs, by simp⟩
      | some body =>
        cases hr : body.response with
        | none =>
          simp only [runHandler, hm, hr]
          exact ⟨hs, by simp⟩
        | some resp =>
          have hne : some rid2 ≠ some rid := by simpa [Handler.rid] using hh
          by_cases hfin : resp.page_flag = some "0"
          · simp only [runHandler, hm, hr, if_pos hfin]
            refine ⟨?_, by simpa [Event.settledRid] using hne⟩
            exact ridFree_setHandler (ridFree_of_handlers_eq rfl hs) _ _ (by simp [Handler.rid])
          · simp only [runHandler, hm, hr, if_neg hfin]
            exact ⟨ridFree_of_handlers_eq rfl hs, by simp⟩
    | getSceneCurrent rid2 =>
      cases hm : m.message with
      | none =>
        simp only [runHandler, hm]
        exact ⟨hs, by simp⟩
      | some body =>
        cases hr : body.response with
        | none =>
          simp only [runHandler, hm, hr]
          exact ⟨hs, by simp⟩
        | some resp =>
          have hne : some rid2 ≠ some rid := by simpa [Handler.rid] using hh
          by_cases hsc : resp.action == some "SceneUpdate"
          · simp only [runHandler, hm, hr, if_pos hsc]
            refine ⟨?_, by simpa [Event.settledRid] using hne⟩
            exact ridFree_setHandler hs _ _ (by simp [Handler.rid])
          · simp only [runHandler, hm, hr, if_neg hsc]
            exact ⟨hs, by simp⟩
    | setSceneCurrent rid2 ns =>
      cases hm : m.message with
      | none =>
        simp only [runHandler, hm]
        exact ⟨hs, by simp⟩
      | some body =>
        cases hr : body.response with
        | none =>
          simp only [runHandler, hm, hr]
          exact ⟨hs, by simp⟩
        | some resp =>
          have hne : some rid2 ≠ some rid := by simpa [Handler.rid] using hh
          by_cases hok : resp.status == some "ok"
          · simp only [runHandler, hm, hr, if_pos hok]
            exact ⟨ridFree_of_handlers_eq rfl hs, by simpa [Event.settledRid] using hne⟩
          · simp only [runHandler, hm, hr, if_neg hok]
            exact ⟨hs, by simpa [Event.settledRid] using hne⟩

/-- The message listener neither settles request `rid` nor reintroduces a
closure for it when the handler map holds no closure for `rid`. -/
theorem processMessage_ridFree_no_settle (rid : Nat) (s : ConnState) (m : InMessage)
    (hs : ridFree rid s) :
    ridFree rid (processMessage s m).1 ∧
    ∀ e ∈ (processMessage s m).2, e.settledRid ≠ some rid := by
  cases hm : m.message with
  | none =>
    by_cases ho : m.msg = some "online"
    · simp only [processMessage, hm, if_pos ho]
      exact ⟨hs, by simp⟩
    · simp only [processMessage, hm, if_neg ho]
      exact ⟨hs, by simp [Event.settledRid]⟩
  | some body =>
    cases hr : body.response with
    | none =>
      by_cases ho : m.msg = some "online"
      · simp only [processMessage, hm, hr, if_pos ho]
        exact ⟨hs, by simp⟩
      · simp only [processMessage, hm, hr, if_neg ho]
        exact ⟨hs, by simp [Event.settledRid]⟩
    | some resp =>
      by_cases hsub : body.subject = some "Alarm"
      · simp only [processMessage, hm, hr, if_pos hsub]
        exact ⟨hs, by simp [Event.settledRid]⟩
      · cases hh : s.handlers (actionKey resp) with
        | none =>
          simp only [processMessage, hm, hr, if_neg hsub, hh]
          exact ⟨hs, by simp [Event.settledRid]⟩
        | some g =>
          simp only [processMessage, hm, hr, if_neg hsub, hh]
          exact runHandler_ridFree_no_settle rid handlerFuel g s m (hs _ g hh) hs

/-- One execution step that does not register request `rid` neither settles
`rid` nor reintroduces a closure for it. -/
theorem effect_ridFree_no_settle (rid : Nat) (s : ConnState) (st : OpStep)
    (hst : st.regRid ≠ some rid) (hs : ridFree rid s) :
    ridFree rid (OpStep.effect s st).1 ∧
    ∀ e ∈ (OpStep.effect s st).2, e.settledRid ≠ some rid := by
  cases st with
  | callGetAllDevices r =>
    refine ⟨ridFree_setHandler hs _ _ ?_, by simp [OpStep.effect]⟩
    simpa [Handler.rid, OpStep.regRid] using hst
  | callGetCurrentAlarmState r =>
    refine ⟨ridFree_setHandler hs _ _ ?_, by simp [OpStep.effect]⟩
    simpa [Handler.rid, OpStep.regRid] using hst
  | callSetAlarmState r ns =>
    refine ⟨ridFree_setHandler hs _ _ ?_, by simp [OpStep.effect]⟩
    simpa [Handler.rid, OpStep.regRid] using hst
  | inbound m => exact processMessage_ridFree_no_settle rid s m hs

/-- Over any run whose steps never register request `rid`, starting from a
state whose handler map holds no closure for `rid`, no emitted event ever
settles `rid`. -/
theorem run_no_settle (rid : Nat) (steps : List OpStep) :
    ∀ s, ridFree rid s → (∀ st ∈ steps, st.regRid ≠ some rid) →
      ∀ e ∈ (run s steps).2, e.settledRid ≠ some rid := by
  induction steps with
  | nil => simp [run]
  | cons st rest ih =>
    intro s hs hsteps e he
    have h1 := effect_ridFree_no_settle rid s st (hsteps st (by simp)) hs
    simp only [run, List.mem_append] at he
    rcases he with he | he
    · exact h1.2 e he
    · exact ih _ h1.1 (fun q hq => hsteps q (by simp [hq])) e he

/-- A registration step stores into its slot a closure settling exactly the
request id it registers, leaving the rest of the state untouched. -/
theorem effect_reg (c : OpStep) (rid : Nat) (k : String) (s : ConnState)
    (hr : c.regRid = some rid) (hk : c.slot = some k) :
    ∃ g : Handler, g.rid = some rid ∧
      (OpStep.effect s c).1 = { s with handlers := setHandler s.handlers k g } ∧
      (OpStep.effect s c).2 = [] := by
  cases c with
  | callGetAllDevices r =>
    obtain rfl : r = rid := by simpa [OpStep.regRid] using hr
    obtain rfl : k = "get_all_devices" := by simpa [OpStep.slot, eq_comm] using hk
    exact ⟨.getAllDevices r, rfl, rfl, rfl⟩
  | callGetCurrentAlarmState r =>
    obtain rfl : r = rid := by simpa [OpStep.regRid] using hr
    obtain rfl : k = "get_scene_current" := by simpa [OpStep.slot, eq_comm] using hk
    exact ⟨.getSceneCurrent r, rfl, rfl, rfl⟩
  | callSetAlarmState r ns =>
    obtain rfl : r = rid := by simpa [OpStep.regRid] using hr
    obtain rfl : k = "set_scene_current" := by simpa [OpStep.slot, eq_comm] using hk
    exact ⟨.setSceneCurrent r ns, rfl, rfl, rfl⟩
  | inbound m => simp [OpStep.regRid] at hr

/-- The fresh connection's handler map holds no request closure at all. -/
theorem ridFree_init (rid : Nat) : ridFree rid initConnState := by
  intro k g hk
  simp only [initConnState, initHandlers] at hk
  split_ifs at hk <;> cases hk <;> simp [Handler.rid]

/-! ## Claim C4 -/

/-- C4.  The handlers field is a map from action names to at most one
closure, so each action name has at most one outstanding handler by
construction; this theorem verifies the behavioural consequence the claim
draws from it.  Starting from any state holding no closure for request
`rid1`, register `rid1` (via any of the three operations), then register a
second request `rid2 ≠ rid1` into the same action slot: the slot then holds
a closure settling `rid2` — the overwrite — the resulting state holds no
closure for `rid1` anywhere, and no event emitted by any subsequent run
that never re-registers `rid1` settles (resolves or rejects) `rid1`: the
earlier caller's promise is never resolved by a later response. -/
theorem handler_overwrite_supersedes (s0 : ConnState) (c1 c2 : OpStep)
    (rid1 rid2 : Nat) (k : String) (steps : List OpStep)
    (h1 : c1.regRid = some rid1) (h2 : c2.regRid = some rid2)
    (hk1 : c1.slot = some k) (hk2 : c2.slot = some k)
    (hne : rid2 ≠ rid1) (hfree : ridFree rid1 s0)
    (hsteps : ∀ st ∈ steps, st.regRid ≠ some rid1) :
    (∃ g : Handler, g.rid = some rid2 ∧
      ((OpStep.effect (OpStep.effect s0 c1).1 c2).1).handlers k = some g) ∧
    ridFree rid1 (OpStep.effect (OpStep.effect s0 c1).1 c2).1 ∧
    ∀ e ∈ (run (OpStep.effect (OpStep.effect s0 c1).1 c2).1 steps).2,
      e.settledRid ≠ some rid1 := by
  obtain ⟨g1, hg1, e1, _⟩ := effect_reg c1 rid1 k s0 h1 hk1
  obtain ⟨g2, hg2, e2, _⟩ := effect_reg c2 rid2 k _ h2 hk2
  have hfree2 : ridFree rid1 (OpStep.effect (OpStep.effect s0 c1).1 c2).1 := by
    rw [e2, e1]
    intro k2 g hkg
    simp only [setHandler] at hkg
    by_cases he : k2 = k
    · rw [if_pos he] at hkg
      cases hkg
      rw [hg2]
      simpa using hne
    · rw [if_neg he, if_neg he] at hkg
      exact hfree k2 g hkg
  refine ⟨⟨g2, hg2, ?_⟩, hfree2, run_no_settle rid1 steps _ hfree2 hsteps⟩
  rw [e2]
  simp [setHandler]

/-- C4, witness: two overlapping `getAllDevices` calls (request ids 1
then 2) on a fresh connection, followed by a complete device-list page;
the page resolves request 2 only, never request 1. -/
theorem handler_overwrite_witness :
    (∃ g : Handler, g.rid = some 2 ∧
      ((OpStep.effect (OpStep.effect initConnState (.callGetAllDevices 1)).1
          (.callGetAllDevices 2)).1).handlers "get_all_devices" = some g) ∧
    ridFree 1 (OpStep.effect (OpStep.effect initConnState (.callGetAllDevices 1)).1
        (.callGetAllDevices 2)).1 ∧
    ∀ e ∈ (run (OpStep.effect (OpStep.effect initConnState (.callGetAllDevices 1)).1
        (.callGetAllDevices 2)).1 [OpStep.inbound (pageMsg dupPage)]).2,
      e.settledRid ≠ some 1 :=
  handler_overwrite_supersedes initConnState (.callGetAllDevices 1) (.callGetAllDevices 2)
    1 2 "get_all_devices" [OpStep.inbound (pageMsg dupPage)] rfl rfl rfl rfl
    (by decide) (ridFree_init 1)
    (by intro st hst; rw [List.mem_singleton] at hst; subst hst; simp [OpStep.regRid])

/-- Any rejection event emitted by any handler (however nested) comes from
a message carrying a response whose `status` is not `"ok"`: the rejected
payload is that response itself. -/
theorem runHandler_rejected_status (rid : Nat) (resp : Response) :
    ∀ (fuel : Nat) (h : Handler) (s : ConnState) (m : InMessage),
      Event.rejected rid resp ∈ (runHandler fuel h s m).2 →
      ∃ body r, m.message = some body ∧ body.response = some r ∧ resp = r ∧
        r.status ≠ some "ok" := by
  intro fuel
  induction fuel with
  | zero =>
    intro h s m hmem
    cases h with
    | ignore => simp [runHandler] at hmem
    | sceneUpdate => simp [runHandler] at hmem
    | statusInfo =>
      cases hm : m.message with
      | none => simp [runHandler, hm] at hmem
      | some body =>
        cases hr : body.response with
        | none => simp [runHandler, hm, hr] at hmem
        | some r => simp [runHandler, hm, hr] at hmem
    | updateDevices =>
      cases hm : m.message with
      | none => simp [runHandler, hm] at hmem
      | some body =>
        cases hr : body.response with
        | none => simp [runHandler, hm, hr] at hmem
        | some r =>
          cases hdl : r.DevicesList <;> simp [runHandler, hm, hr, hdl] at hmem
    | getAllDevices rid2 =>
      cases hm : m.message with
      | none => simp [runHandler, hm] at hmem
      | some body =>
        cases hr : body.response with
        | none => simp [runHandler, hm, hr] at hmem
        | some r =>
          by_cases hfin : r.page_flag = some "0" <;>
            simp [runHandler, hm, hr, hfin] at hmem
    | getSceneCurrent rid2 =>
      cases hm : m.message with
      | none => simp [runHandler, hm] at hmem
      | some body =>
        cases hr : body.response with
        | none => simp [runHandler, hm, hr] at hmem
        | some r =>
          by_cases hsc : r.action == some "SceneUpdate" <;>
            simp [runHandler, hm, hr, hsc] at hmem
    | setSceneCurrent rid2 ns =>
      cases hm : m.message with
      | none => simp [runHandler, hm] at hmem
      | some body =>
        cases hr : body.response with
        | none => simp [runHandler, hm, hr] at hmem
        | some r =>
          by_cases hok : r.status == some "ok"
          · simp [runHandler, hm, hr, hok] at hmem
          · simp only [runHandler, hm, hr, if_neg hok, List.mem_singleton,
              Event.rejected.injEq] at hmem
            refine ⟨body, r, rfl, hr, hmem.2, ?_⟩
            simpa [bne] using hok
  | succ fuel ih =>
    intro h s m hmem
    cases h with
    | ignore => simp [runHandler] at hmem
    | sceneUpdate =>
      cases hm : m.message with
      | none => simp [runHandler, hm] at hmem
      | some body =>
        cases hr : body.response with
        | none => simp [runHandler, hm, hr] at hmem
        | some r =>
          simp only [runHandler, hm, hr] at hmem
          cases hcb : s.handlers "get_scene_current" with
          | none => simp [hcb] at hmem
          | some cb =>
            simp only [hcb, List.mem_cons] at hmem
            rcases hmem with hmem | hmem
            · simp at hmem
            · have hres := ih cb _ m hmem
              rw [hm] at hres
              exact hres
    | statusInfo =>
      cases hm : m.message with
      | none => simp [runHandler, hm] at hmem
      | some body =>
        cases hr : body.response with
        | none => simp [runHandler, hm, hr] at hmem
        | some r => simp [runHandler, hm, hr] at hmem
    | updateDevices =>
      cases hm : m.message with
      | none => simp [runHandler, hm] at hmem
      | some body =>
        cases hr : body.response with
        | none => simp [runHandler, hm, hr] at hmem
        | some r =>
          cases hdl : r.DevicesList <;> simp [runHandler, hm, hr, hdl] at hmem
    | getAllDevices rid2 =>
      cases hm : m.message with
      | none => simp [runHandler, hm] at hmem
      | some body =>
        cases hr : body.response with
        | none => simp [runHandler, hm, hr] at hmem
        | some r =>
          by_cases hfin : r.page_flag = some "0" <;>
            simp [runHandler, hm, hr, hfin] at hmem
    | getSceneCurrent rid2 =>
      cases hm : m.message with
      | none => simp [runHandler, hm] at hmem
      | some body =>
        cases hr : body.response with
        | none => simp [runHandler, hm, hr] at hmem
        | some r =>
          by_cases hsc : r.action == some "SceneUpdate" <;>
            simp [runHandler, hm, hr, hsc] at hmem
    | setSceneCurrent rid2 ns =>
      cases hm : m.message with
      | none => simp [runHandler, hm] at hmem
      | some body =>
        cases hr : body.response with
        | none => simp [runHandler, hm, hr] at hmem
        | some r =>
          by_cases hok : r.status == some "ok"
          · simp [runHandler, hm, hr, hok] at hmem
          · simp only [runHandler, hm, hr, if_neg hok, List.mem_singleton,
              Event.rejected.injEq] at hmem
            refine ⟨body, r, rfl, hr, hmem.2, ?_⟩
            simpa [bne] using hok

/-! ## Claim C6 -/

/-- C6.  Rejection of a pending operation happens only on an inbound
response carrying an explicit failure status: (1) any rejection event the
message listener emits comes from a message whose response has a `status`
other than `"ok"` (and the rejected payload is that response); (2) and (3)
the handlers registered by `getAllDevices` and `getCurrentAlarmState` never
emit a rejection at all; (4) a pending `setAlarmState` rejects exactly when
its acknowledging response's status is not `"ok"`.  In the model, events
arise only from processing an inbound message, so the absence of a response
can never reject anything — the embedding has no timeout transition, as the
source has none. -/
theorem reject_only_on_failure_status :
    (∀ (s : ConnState) (m : InMessage) (rid : Nat) (resp : Response),
      Event.rejected rid resp ∈ (processMessage s m).2 →
      ∃ body r, m.message = some body ∧ body.response = some r ∧ resp = r ∧
        r.status ≠ some "ok") ∧
    (∀ (fuel : Nat) (s : ConnState) (m : InMessage) (rid rid2 : Nat) (resp : Response),
      Event.rejected rid2 resp ∉ (runHandler fuel (.getAllDevices rid) s m).2) ∧
    (∀ (fuel : Nat) (s : ConnState) (m : InMessage) (rid rid2 : Nat) (resp : Response),
      Event.rejected rid2 resp ∉ (runHandler fuel (.getSceneCurrent rid) s m).2) ∧
    (∀ (s : ConnState) (m : InMessage) (body : MessageBody) (resp : Response)
        (rid : Nat) (ns : ArmState),
      s.handlers "set_scene_current" = some (.setSceneCurrent rid ns) →
      m.message = some body → body.response = some resp →
      body.subject ≠ some "Alarm" → resp.action = some "set_scene_current" →
      (Event.rejected rid resp ∈ (processMessage s m).2 ↔ resp.status ≠ some "ok")) := by
  refine ⟨?_, ?_, ?_, ?_⟩
  · intro s m rid resp hmem
    cases hm : m.message with
    | none =>
      by_cases ho : m.msg = some "online" <;> simp [processMessage, hm, ho] at hmem
    | some body =>
      cases hr : body.response with
      | none =>
        by_cases ho : m.msg = some "online" <;> simp [processMessage, hm, hr, ho] at hmem
      | some r =>
        by_cases hsub : body.subject = some "Alarm"
        · simp [processMessage, hm, hr, hsub] at hmem
        · cases hh : s.handlers (actionKey r) with
          | none => simp [processMessage, hm, hr, hsub, hh] at hmem
          | some g =>
            simp only [processMessage, hm, hr, if_neg hsub, hh] at hmem
            have hres := runHandler_rejected_status rid resp handlerFuel g s m hmem
            rw [hm] at hres
            exact hres
  · intro fuel s m rid rid2 resp hmem
    cases hm : m.message with
    | none => simp [runHandler, hm] at hmem
    | some body =>
      cases hr : body.response with
      | none => simp [runHandler, hm, hr] at hmem
      | some r =>
        by_cases hfin : r.page_flag = some "0" <;>
          simp [runHandler, hm, hr, hfin] at hmem
  · intro fuel s m rid rid2 resp hmem
    cases hm : m.message with
    | none => simp [runHandler, hm] at hmem
    | some body =>
      cases hr : body.response with
      | none => simp [runHandler, hm, hr] at hmem
      | some r =>
        by_cases hsc : r.action == some "SceneUpdate" <;>
          simp [runHandler, hm, hr, hsc] at hmem
  · intro s m body resp rid ns hreg hm hr hsub hact
    rw [processMessage_setScene s m body resp rid ns hreg hm hr hsub hact]
    by_cases hok : resp.status = some "ok"
    · rw [if_pos hok]
      simp [hok]
    · rw [if_neg hok]
      simp [hok]

/-- C6, witness: the concrete failed acknowledgement of `setAlarmState`
rejects, and it indeed carries a non-`"ok"` status. -/
theorem reject_only_on_failure_witness :
    Event.rejected 4 ackFailResp ∈ (processMessage setRegState (pageMsg ackFailResp)).2 ↔
      ackFailResp.status ≠ some "ok" :=
  reject_only_on_failure_status.2.2.2 setRegState (pageMsg ackFailResp)
    { response := some ackFailResp, subject := some "zwave" } ackFailResp 4 .Armed
    (by decide) rfl rfl (by decide) rfl

end ChuangoH4
